import Mathlib

/-! Verification development for the rule compilation and execution engine of the
happyfox-assignment repository.  The Lean definitions below are a shallow
embedding of the Python sources:

* `RuleOperations/helpers.py` — `RuleParser.build_condition`,
  `RuleParser.create_sql_query`, `EmailOperationsBundler.bundle_email_operations`;
* `RuleOperations/interfaces.py` — `MarkAsReadOperation`, `MoveToLabelOperation`;
* `RuleOperations/rule_operations.py` — `RuleOperations.run_operations`.

JSON scalar values that can appear in a rule file are modelled by `JVal`
(strings and integers, the shapes the rule conditions actually carry).
Python wall-clock time (`datetime.now(timezone.utc)`) is injected as a
parameter `now`, measured in whole seconds since the Unix epoch; the
`strftime('%Y-%m-%d %H:%M:%S')` formatting of the source is implemented
concretely by `fmtTime` via the standard civil-from-days calendar algorithm.
Collaborator calls (store reads, mail-service updates) are modelled by oracle
functions plus an explicit event trace, so that frame properties about which
collaborator calls occur can be stated and proved.
-/

/-- A JSON scalar as it occurs in rule-condition fields: a string or an
integer.  Python truthiness and `str()` / `int()` coercions on these values
are modelled by the functions below. -/
inductive JVal where
  | s : String → JVal
  | i : Int → JVal
deriving DecidableEq, Repr

/-- Python truthiness of a `JVal`: the empty string and the integer 0 are
falsy, everything else is truthy. -/
def JVal.truthy : JVal → Bool
  | .s v => v ≠ ""
  | .i n => n ≠ 0

/-- Python `str()` applied to a `JVal` (used by the f-string
interpolation `f"%{value}%"` in `build_condition`). -/
def JVal.toStr : JVal → String
  | .s v => v
  | .i n => toString n

/-- Python truthiness of an optional value as returned by `dict.get`:
`None` and the empty string are falsy. -/
def optStrTruthy : Option String → Bool
  | none => false
  | some v => v ≠ ""

/-- Python truthiness of an optional `JVal`. -/
def optJValTruthy : Option JVal → Bool
  | none => false
  | some v => v.truthy

/-- Whitespace characters stripped by Python `int(str)` before parsing. -/
def isPySpace (c : Char) : Bool :=
  c = ' ' || c = '\t' || c = '\n' || c = '\r' || c = '\x0b' || c = '\x0c'

/-- Interpret a list of decimal digits as a natural number. -/
def digitsVal : List Char → Nat → Option Nat
  | [], acc => some acc
  | c :: rest, acc =>
      if c.isDigit then digitsVal rest (acc * 10 + (c.toNat - '0'.toNat))
      else none

/-- Model of Python `int(s)` on a string: strip surrounding whitespace,
accept an optional sign followed by at least one decimal digit, otherwise
raise `ValueError` (modelled as `none`). -/
def pyInt (str : String) : Option Int :=
  let chars := ((str.data.dropWhile isPySpace).reverse.dropWhile isPySpace).reverse
  match chars with
  | [] => none
  | c :: rest =>
      if c = '-' then
        match rest with
        | [] => none
        | _ => (digitsVal rest 0).map (fun n => -(n : Int))
      else if c = '+' then
        match rest with
        | [] => none
        | _ => (digitsVal rest 0).map (fun n => (n : Int))
      else (digitsVal chars 0).map (fun n => (n : Int))

/-- Model of Python `int(value)` on a `JVal`: integers are returned as they
are, strings are parsed by `pyInt`. -/
def JVal.toInt : JVal → Option Int
  | .s v => pyInt v
  | .i n => some n

/-- One step of Python `str.title()` over ASCII text: an alphabetic character
is upper-cased when the previous character was not alphabetic and lower-cased
otherwise; non-alphabetic characters pass through and reset the word. -/
def pyTitleAux : List Char → Bool → List Char
  | [], _ => []
  | c :: rest, prevAlpha =>
      (if c.isAlpha then (if prevAlpha then c.toLower else c.toUpper) else c)
        :: pyTitleAux rest c.isAlpha

/-- Model of Python `str.title()` (ASCII): each run of letters starts with an
upper-case letter and continues in lower case. -/
def pyTitle (str : String) : String := ⟨pyTitleAux str.data false⟩

/-- Model of Python `str.lower()` (ASCII). -/
def pyLower (str : String) : String := ⟨str.data.map Char.toLower⟩

/-- Model of Python `str.upper()` (ASCII). -/
def pyUpper (str : String) : String := ⟨str.data.map Char.toUpper⟩

/-- Left-pad the decimal representation of a natural number with zeros. -/
def padNum (w : Nat) (n : Nat) : String :=
  let str := toString n
  if str.length < w then String.mk (List.replicate (w - str.length) '0') ++ str
  else str

/-- Model of CPython `datetime.strftime('%Y-%m-%d %H:%M:%S')` on a UTC
datetime given as whole seconds since the Unix epoch: convert the day count
to a civil date with the standard era/day-of-era algorithm and zero-pad every
component. -/
def fmtTime (t : Int) : String :=
  let days := Int.ediv t 86400
  let secs := (Int.emod t 86400).toNat
  let z := days + 719468
  let era := Int.ediv z 146097
  let doe := (Int.emod z 146097).toNat
  let yoe := (doe - doe / 1460 + doe / 36524 - doe / 146096) / 365
  let doy := doe - (365 * yoe + yoe / 4 - yoe / 100)
  let mp := (5 * doy + 2) / 153
  let d := doy - (153 * mp + 2) / 5 + 1
  let m := if mp < 10 then mp + 3 else mp - 9
  let year := era * 400 + (yoe : Int) + (if m ≤ 2 then 1 else 0)
  padNum 4 year.toNat ++ "-" ++ padNum 2 m ++ "-" ++ padNum 2 d ++ " " ++
    padNum 2 (secs / 3600) ++ ":" ++ padNum 2 (secs % 3600 / 60) ++ ":" ++
    padNum 2 (secs % 60)

/-- One rule condition as read from the rule file
(`condition.get('field_name')`, `'predicate'`, `'value'`, `'unit'` in
`RuleParser.build_condition`); absent keys are `none`. -/
structure Condition where
  field_name : Option String
  predicate : Option String
  value : Option JVal
  unit : Option String
deriving DecidableEq

/-- Wrap an identifier in double quotes, as the f-strings
`f"\"{field_name}\" LIKE ?"` etc. of `build_condition` do. -/
def dquote (str : String) : String := "\"" ++ str ++ "\""

/-- Embedding of `RuleParser.build_condition` (RuleOperations/helpers.py).
`now` is the value of `datetime.now(timezone.utc)` in whole seconds since the
Unix epoch.  Returns `none` where the source returns `(None, None)`.
`timedelta(days=k)` is exactly `k * 86400` seconds. -/
def build_condition (now : Nat) (c : Condition) : Option (String × JVal) :=
  let field_name := pyTitle (c.field_name.getD "")
  if field_name = "" ∨ optStrTruthy c.predicate = false ∨ optJValTruthy c.value = false then
    none
  else
    let p := c.predicate.getD ""
    let v := c.value.getD (JVal.s "")
    if p = "contains" then
      some (dquote field_name ++ " LIKE ?", JVal.s ("%" ++ v.toStr ++ "%"))
    else if p = "does not contain" then
      some (dquote field_name ++ " NOT LIKE ?", JVal.s ("%" ++ v.toStr ++ "%"))
    else if p = "equals" then
      some (dquote field_name ++ " = ?", v)
    else if p = "does not equal" then
      some (dquote field_name ++ " != ?", v)
    else if (p = "is less than" ∨ p = "is greater than") ∧ field_name = "Date Received" then
      match v.toInt with
      | none => none
      | some value_int =>
        if c.unit = some "days" then
          if p = "is less than" then
            some (dquote field_name ++ " > ?", JVal.s (fmtTime ((now : Int) - value_int * 86400)))
          else
            some (dquote field_name ++ " < ?", JVal.s (fmtTime ((now : Int) - value_int * 86400)))
        else if c.unit = some "months" then
          if p = "is less than" then
            some (dquote field_name ++ " > ?",
              JVal.s (fmtTime ((now : Int) - 30 * value_int * 86400)))
          else
            some (dquote field_name ++ " < ?",
              JVal.s (fmtTime ((now : Int) - 30 * value_int * 86400)))
        else none
    else none

/-- One operation descriptor from a rule's `operations` list
(`operation.get('action')`, `operation.get('destination')` in
`EmailOperationsBundler.bundle_email_operations`). -/
structure OpDesc where
  action : Option String
  destination : Option String
deriving DecidableEq

/-- An executable email operation (RuleOperations/interfaces.py):
`MarkAsReadOperation` or `MoveToLabelOperation` holding its label (already
upper-cased by the constructor). -/
inductive EmailOperation where
  | markAsRead
  | moveToLabel (label : String)
deriving DecidableEq

/-- One rule as read from the rule file (`rule.get('rule_name')`,
`'rule_collection_predicate'`, `'rules'`, `'operations'`); absent keys are
`none` for the scalars and the empty list for the lists, matching the
`dict.get` defaults used in the source. -/
structure Rule where
  rule_name : Option String
  rule_collection_predicate : Option String
  rules : List Condition
  operations : List OpDesc
deriving DecidableEq

/-- The loop of `RuleParser.create_sql_query` over `rule_conditions`:
appends each compiled fragment and its bound value to the two accumulator
lists when `sql_condition and value is not None` holds (in the embedding a
`some` result, whose fragment is checked nonempty like the Python truthiness
test). -/
def buildLoop (now : Nat) : List Condition → List String → List JVal →
    List String × List JVal
  | [], sql_conditions, condition_values => (sql_conditions, condition_values)
  | c :: rest, sql_conditions, condition_values =>
      match build_condition now c with
      | some (sql_condition, value) =>
          if sql_condition ≠ "" then
            buildLoop now rest (sql_conditions ++ [sql_condition])
              (condition_values ++ [value])
          else
            buildLoop now rest sql_conditions condition_values
      | none => buildLoop now rest sql_conditions condition_values

/-- Embedding of `RuleParser.create_sql_query` (RuleOperations/helpers.py):
compile every condition, keep the successful ones in order, return `("", [])`
when none survived, and otherwise join the fragments with `" AND "` when the
lower-cased collection predicate (default `"all"`) equals `"all"` and with
`" OR "` otherwise. -/
def create_sql_query (now : Nat) (rule : Rule) : String × List JVal :=
  let rule_collection_predicate := rule.rule_collection_predicate.getD "all"
  let (sql_conditions, condition_values) := buildLoop now rule.rules [] []
  if sql_conditions = [] then ("", [])
  else if pyLower rule_collection_predicate = "all" then
    (String.intercalate " AND " sql_conditions, condition_values)
  else
    (String.intercalate " OR " sql_conditions, condition_values)

/-- Embedding of `EmailOperationsBundler.bundle_email_operations`
(RuleOperations/helpers.py) for one descriptor: `'Mark as Read'` yields a
`MarkAsReadOperation`, `'Move message'` with a truthy `destination` yields a
`MoveToLabelOperation` (whose constructor upper-cases the label,
RuleOperations/interfaces.py), anything else is dropped. -/
def bundleOne (op : OpDesc) : Option EmailOperation :=
  if op.action = some "Mark as Read" then some EmailOperation.markAsRead
  else if op.action = some "Move message" then
    if optStrTruthy op.destination then
      some (EmailOperation.moveToLabel (pyUpper (op.destination.getD "")))
    else none
  else none

/-- Embedding of `EmailOperationsBundler.bundle_email_operations`: the
operations bundled from a descriptor list, in order. -/
def bundle_email_operations (rule_operations : List OpDesc) : List EmailOperation :=
  rule_operations.filterMap bundleOne

/-- A row returned by `db.read("emails", ...)` as used by
`run_operations`: only `unique_id` steers control flow (the remaining
columns are read for log output only and are kept as an opaque association
list). -/
structure Email where
  unique_id : Option String
  rest : List (String × JVal)
deriving DecidableEq

/-- An observable collaborator call made during a run.  The store
collaborator (`SQLiteDatabase`) offers `read`, `insert`, `update` and
`create_table`; a `delete` capability would also act on stored rows, so it is
included to make the frame statement about stored records meaningful.  The
mail-service collaborator offers
`update_email(message_id, mark_as_read, move_to_label)`. -/
inductive Event where
  | storeRead (table : String) (condition : String) (condition_values : List JVal)
  | storeInsert (table : String) (data : List (String × JVal))
  | storeUpdate (table : String) (data : List (String × JVal))
      (condition : String) (condition_values : List JVal)
  | storeDelete (table : String) (condition : String)
  | storeCreateTable (table : String)
  | mailUpdate (message_id : String) (mark_as_read : Bool) (move_to_label : Option String)
deriving DecidableEq

/-- The mail-service call made by `EmailOperation.apply`
(RuleOperations/interfaces.py): `MarkAsReadOperation` passes
`mark_as_read=True`, `MoveToLabelOperation` passes `move_to_label=label`;
the unpassed keyword defaults to `False` resp. `None` in
`GmailService.update_email`. -/
def opEvent (email_id : String) : EmailOperation → Event
  | .markAsRead => .mailUpdate email_id true none
  | .moveToLabel label => .mailUpdate email_id false (some label)

/-- The result of a Python call as its caller observes it: a returned value
or a propagated exception.  `run_operations` wraps its whole body in a
catch-all `try/except` that returns `None`, so the embedding below never
produces `raised`; the constructor exists so that claims about exception
propagation can be stated. -/
inductive PyResult where
  | ret (value : Option Nat)
  | raised
deriving DecidableEq

/-- The inner loop of `run_operations` over `email_operations`: apply each
operation via the mail-service oracle, OR the boolean results into
`is_success`, record one `mailUpdate` event per call, and propagate an
exception raised by a call. -/
def applyOps (applyOp : String → EmailOperation → Except Unit Bool)
    (email_id : String) : List EmailOperation → Bool → Except Unit Bool × List Event
  | [], is_success => (.ok is_success, [])
  | operation :: rest, is_success =>
      let ev := opEvent email_id operation
      match applyOp email_id operation with
      | .error e => (.error e, [ev])
      | .ok result =>
          let (r, tr) := applyOps applyOp email_id rest (is_success || result)
          (r, ev :: tr)

/-- The loop of `run_operations` over `matching_emails`: skip a record whose
`unique_id` is falsy, otherwise apply every bundled operation and count the
record when at least one operation returned success. -/
def processEmails (applyOp : String → EmailOperation → Except Unit Bool)
    (email_operations : List EmailOperation) :
    List Email → Nat → Except Unit Nat × List Event
  | [], rule_success_count => (.ok rule_success_count, [])
  | email :: rest, rule_success_count =>
      if optStrTruthy email.unique_id then
        let email_id := email.unique_id.getD ""
        match applyOps applyOp email_id email_operations false with
        | (.error e, tr) => (.error e, tr)
        | (.ok is_success, tr) =>
            let (r, tr2) := processEmails applyOp email_operations rest
              (rule_success_count + if is_success then 1 else 0)
            (r, tr ++ tr2)
      else
        processEmails applyOp email_operations rest rule_success_count

/-- The loop of `run_operations` over `rules`: compile the rule's predicate,
skip the rule when the predicate is empty, otherwise query the store
(recording a `storeRead` on table `"emails"`), and when both the rule's
operation list and the result set are nonempty, bundle the operations and
process every matching record, adding the per-rule count to `success_count`. -/
def processRules (now : Nat)
    (dbRead : String → List JVal → Except Unit (List Email))
    (applyOp : String → EmailOperation → Except Unit Bool) :
    List Rule → Nat → Except Unit Nat × List Event
  | [], success_count => (.ok success_count, [])
  | rule :: rest, success_count =>
      let (condition_str, condition_values) := create_sql_query now rule
      if condition_str ≠ "" then
        let ev := Event.storeRead "emails" condition_str condition_values
        match dbRead condition_str condition_values with
        | .error e => (.error e, [ev])
        | .ok matching_emails =>
            let operations := rule.operations
            if operations ≠ [] ∧ matching_emails ≠ [] then
              match processEmails applyOp (bundle_email_operations operations)
                  matching_emails 0 with
              | (.error e, tr) => (.error e, ev :: tr)
              | (.ok rule_success_count, tr) =>
                  let (r, tr2) := processRules now dbRead applyOp rest
                    (success_count + rule_success_count)
                  (r, ev :: (tr ++ tr2))
            else
              let (r, tr2) := processRules now dbRead applyOp rest success_count
              (r, ev :: tr2)
      else
        processRules now dbRead applyOp rest success_count

/-- Embedding of `RuleOperations.run_operations`
(RuleOperations/rule_operations.py).  `load` is the outcome of
`self.file_handler.read()`, `dbRead` the store collaborator's
`read("emails", condition, condition_values)`, and `applyOp` the result of
`operation.apply(email_id, self.gmail)`.  The source wraps the entire body in
`try/except Exception` and returns `None` from the handler, so every
exception — including a rule-file load failure — yields a normal `None`
return; the caller never observes a raised error. -/
def run_operations (load : Except Unit (List Rule)) (now : Nat)
    (dbRead : String → List JVal → Except Unit (List Email))
    (applyOp : String → EmailOperation → Except Unit Bool) :
    PyResult × List Event :=
  match load with
  | .error _ => (.ret none, [])
  | .ok rules =>
      match processRules now dbRead applyOp rules 0 with
      | (.ok success_count, tr) => (.ret (some success_count), tr)
      | (.error _, tr) => (.ret none, tr)

/-! Specification-side definitions used by the theorems. -/

/-- The conditions `build_condition` accepts, spelled out: `field_name`,
`predicate` and `value` all truthy, and the predicate is either one of the
four text predicates (on any field, including `Date Received`), or a date
predicate on the title-cased field `Date Received` with an
integer-parseable value and unit `days` or `months`. -/
def keptCondition (c : Condition) : Prop :=
  pyTitle (c.field_name.getD "") ≠ "" ∧ optStrTruthy c.predicate = true ∧
  optJValTruthy c.value = true ∧
  (c.predicate.getD "" = "contains" ∨ c.predicate.getD "" = "does not contain" ∨
   c.predicate.getD "" = "equals" ∨ c.predicate.getD "" = "does not equal" ∨
   ((c.predicate.getD "" = "is less than" ∨ c.predicate.getD "" = "is greater than") ∧
    pyTitle (c.field_name.getD "") = "Date Received" ∧
    ((c.value.getD (JVal.s "")).toInt).isSome = true ∧
    (c.unit = some "days" ∨ c.unit = some "months")))

/-- The per-rule success count the engine is specified to produce: the
number of records matching the rule's compiled predicate that carry a truthy
`unique_id` and for which at least one bundled operation returns success;
a rule whose predicate compiled empty is skipped and contributes 0. -/
def successesForRule (now : Nat) (dbF : String → List JVal → List Email)
    (apF : String → EmailOperation → Bool) (rule : Rule) : Nat :=
  let q := create_sql_query now rule
  if q.1 = "" then 0
  else
    let ops := bundle_email_operations rule.operations
    ((dbF q.1 q.2).filter (fun e =>
      optStrTruthy e.unique_id && ops.any (fun op => apF (e.unique_id.getD "") op))).length

/-- An event that merely reads the store or updates remote mail state. -/
def Event.isStoreReadOrMailUpdate : Event → Bool
  | .storeRead .. => true
  | .mailUpdate .. => true
  | _ => false

/-- An event that would mutate stored records: a store insert, update or
delete. -/
def Event.isStoreWrite : Event → Bool
  | .storeInsert .. => true
  | .storeUpdate .. => true
  | .storeDelete .. => true
  | _ => false

/-- A concrete rule whose single condition is missing every subfield, so no
condition compiles; used to witness the empty-predicate behavior. -/
def exampleEmptyRule : Rule :=
  { rule_name := some "r", rule_collection_predicate := some "all",
    rules := [{ field_name := none, predicate := none, value := none, unit := none }],
    operations := [] }

/-- The caller observation asserted by the spec's failure-semantics clause:
an aggregate success count, or a raised error.  A returned Python `None` is
neither. -/
def observesCountOrRaise : PyResult → Bool
  | .ret (some _) => true
  | .ret none => false
  | .raised => true

/-! Lemmas and theorems about the condition and rule compilers. -/

/-- A double-quoted identifier followed by anything is a nonempty string. -/
theorem dquote_append_ne_empty (a t : String) : dquote a ++ t ≠ "" := by
  intro heq
  have hl := congrArg String.length heq
  simp only [dquote, String.length_append, show ("\"" : String).length = 1 from rfl,
    show ("" : String).length = 0 from rfl] at hl
  omega

/-- Every fragment produced by `build_condition` is a nonempty string (it
starts with a quoted field name), so the Python truthiness test
`if sql_condition` in `create_sql_query` is equivalent to the `some` check. -/
theorem build_condition_fst_ne_empty (now : Nat) (c : Condition) (s : String) (v : JVal)
    (h : build_condition now c = some (s, v)) : s ≠ "" := by
  simp only [build_condition] at h
  repeat' split at h
  all_goals first
    | (rw [Option.some.injEq, Prod.mk.injEq] at h
       exact h.1 ▸ dquote_append_ne_empty _ _)
    | exact absurd h (by simp)

/-- The accumulating loop of `create_sql_query` collects exactly the
successfully compiled conditions, in order, fragments and bound values
aligned. -/
theorem buildLoop_eq_filterMap (now : Nat) (cs : List Condition)
    (acc1 : List String) (acc2 : List JVal) :
    buildLoop now cs acc1 acc2 =
      (acc1 ++ (cs.filterMap (build_condition now)).map Prod.fst,
       acc2 ++ (cs.filterMap (build_condition now)).map Prod.snd) := by
  induction cs generalizing acc1 acc2 with
  | nil => simp [buildLoop]
  | cons c rest ih =>
      cases hc : build_condition now c with
      | none => simp [buildLoop, hc, ih]
      | some pair =>
          obtain ⟨s, v⟩ := pair
          have hs : s ≠ "" := build_condition_fst_ne_empty now c s v hc
          rw [buildLoop, hc]
          simp only [hs, if_pos, ite_true, ne_eq, not_false_eq_true]
          rw [ih]
          simp [hc]

/-- Closed form of `create_sql_query`: the surviving compiled conditions are
`rule.rules.filterMap (build_condition now)`; an empty survivor list yields
`("", [])`, otherwise the fragments are joined and the values returned in the
same order. -/
theorem create_sql_query_eq (now : Nat) (rule : Rule) :
    create_sql_query now rule =
      (if rule.rules.filterMap (build_condition now) = [] then ("", [])
       else if pyLower (rule.rule_collection_predicate.getD "all") = "all" then
         (String.intercalate " AND " ((rule.rules.filterMap (build_condition now)).map Prod.fst),
          (rule.rules.filterMap (build_condition now)).map Prod.snd)
       else
         (String.intercalate " OR " ((rule.rules.filterMap (build_condition now)).map Prod.fst),
          (rule.rules.filterMap (build_condition now)).map Prod.snd)) := by
  simp only [create_sql_query, buildLoop_eq_filterMap, List.nil_append, List.map_eq_nil_iff]

/-- Claim C5: `create_sql_query` compiles each condition in order, discards
the ones that compiled to `(None, None)`, joins the surviving fragments with
`" AND "` when the (lower-cased, default `"all"`) collection predicate is
`"all"` and with `" OR "` otherwise, and returns one bound value per
surviving fragment, in the same order as the fragments. -/
theorem create_sql_query_joins_surviving_fragments (now : Nat) (rule : Rule)
    (h : rule.rules.filterMap (build_condition now) ≠ []) :
    create_sql_query now rule =
      (String.intercalate
        (if pyLower (rule.rule_collection_predicate.getD "all") = "all" then " AND " else " OR ")
        ((rule.rules.filterMap (build_condition now)).map Prod.fst),
       (rule.rules.filterMap (build_condition now)).map Prod.snd) := by
  rw [create_sql_query_eq, if_neg h]
  split_ifs <;> rfl

/-- Witness for C5: a rule with one valid `contains` condition and collection
predicate `"any"` compiles to that single fragment with its single bound
value. -/
theorem create_sql_query_joins_surviving_fragments_witness :
    create_sql_query 0
        { rule_name := some "r", rule_collection_predicate := some "any",
          rules := [{ field_name := some "Subject", predicate := some "contains",
                      value := some (JVal.s "Test"), unit := none }],
          operations := [] }
      = ("\"Subject\" LIKE ?", [JVal.s "%Test%"]) := by
  rw [create_sql_query_joins_surviving_fragments 0 _ (by decide)]
  rfl

/-- Claim C10: `create_sql_query` accepts any collection-predicate string
without validation — a missing `rule_collection_predicate` behaves exactly
like `"all"`, and any string behaves like `"all"` when it lower-cases to
`"all"` and like `"any"` otherwise; the compiler is a total function, so no
error is ever raised for a value outside the all/any enum. -/
theorem create_sql_query_collection_predicate_lenient (now : Nat) (rule : Rule) :
    create_sql_query now { rule with rule_collection_predicate := none }
        = create_sql_query now { rule with rule_collection_predicate := some "all" } ∧
    ∀ p, create_sql_query now { rule with rule_collection_predicate := some p }
        = create_sql_query now
            { rule with
              rule_collection_predicate := some (if pyLower p = "all" then "all" else "any") } := by
  constructor
  · rfl
  · intro p
    by_cases hp : pyLower p = "all"
    · rw [if_pos hp, create_sql_query_eq, create_sql_query_eq]
      simp [hp, show pyLower "all" = "all" from rfl]
    · rw [if_neg hp, create_sql_query_eq, create_sql_query_eq]
      simp only [Option.getD_some, hp, if_false, show pyLower "any" = "any" from rfl]
      simp

/-- Claim C4 (amended): `build_condition` produces a fragment exactly on the
conditions described by `keptCondition`, and returns `(None, None)` in every
other case — silently, since it is a total function.  In particular a text
predicate on `Date Received` is accepted, not dropped. -/
theorem build_condition_isSome_iff_kept (now : Nat) (c : Condition) :
    (build_condition now c).isSome = true ↔ keptCondition c := by
  obtain ⟨fn, pr, va, un⟩ := c
  by_cases h1 : pyTitle (fn.getD "") = ""
  · simp [build_condition, keptCondition, h1]
  cases pr with
  | none => simp [build_condition, keptCondition, optStrTruthy]
  | some p =>
    cases va with
    | none => simp [build_condition, keptCondition, optJValTruthy]
    | some v =>
      by_cases hpe : p = ""
      · simp [build_condition, keptCondition, optStrTruthy, hpe]
      by_cases hve : v.truthy = false
      · simp [build_condition, keptCondition, optJValTruthy, hve, h1, optStrTruthy, hpe]
      rw [Bool.not_eq_false] at hve
      by_cases hp1 : p = "contains"
      · simp [build_condition, keptCondition, optStrTruthy, optJValTruthy, h1, hpe, hve, hp1]
      by_cases hp2 : p = "does not contain"
      · simp [build_condition, keptCondition, optStrTruthy, optJValTruthy, h1, hpe, hve,
          hp1, hp2]
      by_cases hp3 : p = "equals"
      · simp [build_condition, keptCondition, optStrTruthy, optJValTruthy, h1, hpe, hve,
          hp1, hp2, hp3]
      by_cases hp4 : p = "does not equal"
      · simp [build_condition, keptCondition, optStrTruthy, optJValTruthy, h1, hpe, hve,
          hp1, hp2, hp3, hp4]
      by_cases hp56 : p = "is less than" ∨ p = "is greater than"
      · by_cases hdr : pyTitle (fn.getD "") = "Date Received"
        · cases hti : v.toInt with
          | none =>
            simp [build_condition, keptCondition, optStrTruthy, optJValTruthy, h1, hpe,
              hve, hp1, hp2, hp3, hp4, hp56, hdr, hti]
          | some k =>
            by_cases hu1 : un = some "days"
            · rcases hp56 with hp5 | hp5 <;>
                simp [build_condition, keptCondition, optStrTruthy, optJValTruthy, h1,
                  hpe, hve, hp1, hp2, hp3, hp4, hp5, hdr, hti, hu1]
            by_cases hu2 : un = some "months"
            · rcases hp56 with hp5 | hp5 <;>
                simp [build_condition, keptCondition, optStrTruthy, optJValTruthy, h1,
                  hpe, hve, hp1, hp2, hp3, hp4, hp5, hdr, hti, hu1, hu2]
            · rcases hp56 with hp5 | hp5 <;>
                simp [build_condition, keptCondition, optStrTruthy, optJValTruthy, h1,
                  hpe, hve, hp1, hp2, hp3, hp4, hp5, hdr, hti, hu1, hu2]
        · rcases hp56 with hp5 | hp5 <;>
            simp [build_condition, keptCondition, optStrTruthy, optJValTruthy, h1, hpe,
              hve, hp1, hp2, hp3, hp4, hp5, hdr]
      · rw [not_or] at hp56
        simp [build_condition, keptCondition, optStrTruthy, optJValTruthy, h1, hpe, hve,
          hp1, hp2, hp3, hp4, hp56.1, hp56.2]

/-- Counterexample to claim C4 as stated: a text predicate on the field
`Date Received` is not dropped — `equals` on `Date Received` compiles to an
equality fragment, so the compiler does not reject this invalid
predicate/field combination. -/
theorem build_condition_text_on_date_received_cex :
    build_condition 0
        { field_name := some "Date Received", predicate := some "equals",
          value := some (JVal.s "2024-01-01 00:00:00"), unit := none }
      = some ("\"Date Received\" = ?", JVal.s "2024-01-01 00:00:00") ∧
    (build_condition 0
        { field_name := some "Date Received", predicate := some "equals",
          value := some (JVal.s "2024-01-01 00:00:00"), unit := none }).isNone = false := by
  constructor <;> rfl

/-- Claim C3 (amended): for a truthy field and value, the text predicates
compile to plain fragments interpolating the title-cased field name in
double quotes: `contains` gives `LIKE` with the value wrapped in `%...%` and
not lower-cased, and `equals` / `does not equal` give `=` / `!=` with the
raw value; no `LOWER(...)` wrapping is applied by the compiler. -/
theorem build_condition_text_fragments (now : Nat) (c : Condition)
    (hf : pyTitle (c.field_name.getD "") ≠ "")
    (hv : optJValTruthy c.value = true)
    (hp : c.predicate = some "contains" ∨ c.predicate = some "equals" ∨
          c.predicate = some "does not equal") :
    build_condition now c =
      some (dquote (pyTitle (c.field_name.getD "")) ++
              (if c.predicate = some "contains" then " LIKE ?"
               else if c.predicate = some "equals" then " = ?" else " != ?"),
            if c.predicate = some "contains"
              then JVal.s ("%" ++ (c.value.getD (JVal.s "")).toStr ++ "%")
              else c.value.getD (JVal.s "")) := by
  rcases hp with hp | hp | hp <;>
    simp [build_condition, hp, hf, hv, optStrTruthy]

/-- Witness for the amended C3: compiling `contains` on `Subject` with value
`"Test"` yields the plain `LIKE` fragment with the value untouched. -/
theorem build_condition_text_fragments_witness :
    build_condition 0
        { field_name := some "Subject", predicate := some "contains",
          value := some (JVal.s "Test"), unit := none }
      = some ("\"Subject\" LIKE ?", JVal.s "%Test%") := by
  rw [build_condition_text_fragments 0
    { field_name := some "Subject", predicate := some "contains",
      value := some (JVal.s "Test"), unit := none }
    (by decide) (by decide) (Or.inl rfl)]
  rfl

/-- Counterexample to claim C3 as stated: `contains` on `Subject` with value
`"Test"` compiles to `"Subject" LIKE ?` binding `%Test%` — the fragment has
no `LOWER(...)` wrapper and the bound value is not lower-cased, so the
output differs from the claimed `LOWER(field) LIKE` / `%test%` form. -/
theorem build_condition_contains_not_lowered_cex :
    build_condition 0
        { field_name := some "Subject", predicate := some "contains",
          value := some (JVal.s "Test"), unit := none }
      = some ("\"Subject\" LIKE ?", JVal.s "%Test%") ∧
    ((build_condition 0
        { field_name := some "Subject", predicate := some "contains",
          value := some (JVal.s "Test"), unit := none }
      == some ("LOWER(\"Subject\") LIKE ?", JVal.s "%test%")) = false) := by
  constructor <;> rfl

/-- Claim C2: a condition on (title-cased) field `Date Received` with a date
predicate, a unit of `days` or `months`, and a truthy value parsing as the
integer `N` compiles to a comparison of the quoted field against one bound
value: `>` for `is less than` and `<` for `is greater than`, the bound value
being `now_utc - N * unit_in_days` formatted by `fmtTime`, the model of
`strftime('%Y-%m-%d %H:%M:%S')`. -/
theorem build_condition_date_received (now : Nat) (c : Condition) (N : Int)
    (hf : pyTitle (c.field_name.getD "") = "Date Received")
    (hp : c.predicate = some "is less than" ∨ c.predicate = some "is greater than")
    (hu : c.unit = some "days" ∨ c.unit = some "months")
    (hv : optJValTruthy c.value = true)
    (hN : (c.value.getD (JVal.s "")).toInt = some N) :
    build_condition now c =
      some ((if c.predicate = some "is less than"
              then "\"Date Received\" > ?" else "\"Date Received\" < ?"),
        JVal.s (fmtTime ((now : Int) -
          (if c.unit = some "days" then 1 else 30) * N * 86400))) := by
  have hfe : pyTitle (c.field_name.getD "") ≠ "" := by rw [hf]; decide
  rcases hp with hp | hp <;> rcases hu with hu | hu <;>
    simp [build_condition, hf, hfe, hp, hu, hv, hN, optStrTruthy, dquote, one_mul]

/-- Witness for C2: `is less than 2 days` on `Date Received` at epoch second
1700000000 compiles to a `>` comparison against the instant two days
earlier. -/
theorem build_condition_date_received_witness :
    build_condition 1700000000
        { field_name := some "Date Received", predicate := some "is less than",
          value := some (JVal.i 2), unit := some "days" }
      = some ("\"Date Received\" > ?",
          JVal.s (fmtTime ((1700000000 : Int) - 1 * 2 * 86400))) := by
  rw [build_condition_date_received 1700000000
    { field_name := some "Date Received", predicate := some "is less than",
      value := some (JVal.i 2), unit := some "days" }
    2 (by decide) (Or.inl rfl) (Or.inl rfl) (by decide) (by decide)]
  rfl

/-- Claim C8: a `months` condition with integer value `N` compiles exactly
like the same condition with unit `days` and any value that is truthy and
parses as the integer `30 * N`, at the same instant `now` — months are
exactly 30 days. -/
theorem build_condition_months_as_thirty_days (now : Nat) (c : Condition) (N : Int)
    (v2 : JVal)
    (hp : c.predicate = some "is less than" ∨ c.predicate = some "is greater than")
    (hu : c.unit = some "months")
    (hv : optJValTruthy c.value = true)
    (hN : (c.value.getD (JVal.s "")).toInt = some N)
    (hv2 : v2.truthy = true)
    (hN2 : v2.toInt = some (30 * N)) :
    build_condition now c =
      build_condition now { c with unit := some "days", value := some v2 } := by
  have hB : optJValTruthy (some v2) = true := by simp [optJValTruthy, hv2]
  by_cases h1 : pyTitle (c.field_name.getD "") = ""
  · simp [build_condition, h1]
  by_cases hdr : pyTitle (c.field_name.getD "") = "Date Received"
  · rcases hp with hp | hp <;>
      simp [build_condition, h1, hdr, hp, hu, hv, hN, hB, hN2, optStrTruthy, mul_assoc]
  · rcases hp with hp | hp <;>
      simp [build_condition, h1, hdr, hp, hu, hv, hB, optStrTruthy]

/-- Witness for C8: `is greater than 2 months` compiles identically to
`is greater than 60 days` (value given as the integer 60) at the same
instant. -/
theorem build_condition_months_as_thirty_days_witness :
    build_condition 1700000000
        { field_name := some "Date Received", predicate := some "is greater than",
          value := some (JVal.i 2), unit := some "months" }
      = build_condition 1700000000
        { field_name := some "Date Received", predicate := some "is greater than",
          value := some (JVal.i 60), unit := some "days" } := by
  exact build_condition_months_as_thirty_days 1700000000
    { field_name := some "Date Received", predicate := some "is greater than",
      value := some (JVal.i 2), unit := some "months" }
    2 (JVal.i 60) (Or.inr rfl) rfl (by decide) (by decide) (by decide) (by decide)

/-! Lemmas and theorems about the execution engine. -/

/-- With an error-free mail-service oracle, the operation loop returns the
OR of the accumulator with the per-operation results and records one
mail-service call per operation, in order. -/
theorem applyOps_ok_oracle (apF : String → EmailOperation → Bool) (email_id : String)
    (ops : List EmailOperation) (b : Bool) :
    applyOps (fun i op => Except.ok (apF i op)) email_id ops b
      = (Except.ok (b || ops.any (fun op => apF email_id op)),
         ops.map (opEvent email_id)) := by
  induction ops generalizing b with
  | nil => simp [applyOps]
  | cons op rest ih => simp [applyOps, ih, Bool.or_assoc]

/-- With an error-free mail-service oracle, the email loop returns the
accumulator plus the number of records with a truthy `unique_id` on which at
least one bundled operation succeeds. -/
theorem processEmails_ok_oracle (apF : String → EmailOperation → Bool)
    (ops : List EmailOperation) (emails : List Email) (acc : Nat) :
    (processEmails (fun i op => Except.ok (apF i op)) ops emails acc).1
      = Except.ok (acc + (emails.filter (fun e =>
          optStrTruthy e.unique_id &&
            ops.any (fun op => apF (e.unique_id.getD "") op))).length) := by
  induction emails generalizing acc with
  | nil => simp [processEmails]
  | cons e rest ih =>
    cases he : optStrTruthy e.unique_id with
    | false => simp [processEmails, he, ih, List.filter_cons]
    | true =>
      rw [processEmails]
      simp only [he, if_true, applyOps_ok_oracle, Bool.false_or]
      cases hany : ops.any (fun op => apF (e.unique_id.getD "") op) with
      | false => simp [ih, List.filter_cons, he, hany]
      | true =>
        simp [ih, List.filter_cons, he, hany]
        omega

/-- With error-free store and mail-service oracles, the rule loop returns the
accumulator plus the sum of the per-rule success counts. -/
theorem processRules_ok_oracle (now : Nat) (dbF : String → List JVal → List Email)
    (apF : String → EmailOperation → Bool) (rules : List Rule) (acc : Nat) :
    (processRules now (fun cond vals => Except.ok (dbF cond vals))
        (fun i op => Except.ok (apF i op)) rules acc).1
      = Except.ok (acc + (rules.map (successesForRule now dbF apF)).sum) := by
  induction rules generalizing acc with
  | nil => simp [processRules]
  | cons rule rest ih =>
    rcases hq : create_sql_query now rule with ⟨cond, vals⟩
    by_cases hc : cond = ""
    · subst hc
      simp [processRules, hq, ih, successesForRule]
    · by_cases hg : rule.operations ≠ [] ∧ dbF cond vals ≠ []
      · rcases hP : processEmails (fun i op => Except.ok (apF i op))
            (bundle_email_operations rule.operations) (dbF cond vals) 0 with ⟨r, tr⟩
        have hr : r = Except.ok (0 + ((dbF cond vals).filter (fun e =>
            optStrTruthy e.unique_id && (bundle_email_operations rule.operations).any
              (fun op => apF (e.unique_id.getD "") op))).length) := by
          have hl := processEmails_ok_oracle apF (bundle_email_operations rule.operations)
            (dbF cond vals) 0
          rw [hP] at hl
          exact hl
        subst hr
        simp [processRules, hq, hc, hg, hP, ih, successesForRule, Nat.add_assoc]
      · have hsz : successesForRule now dbF apF rule = 0 := by
          rw [successesForRule]
          simp only [hq, hc, if_false]
          rcases Decidable.not_and_iff_or_not.mp hg with hop | hdb
          · rw [not_not] at hop
            simp [hop, bundle_email_operations, List.filterMap]
          · rw [not_not] at hdb
            simp [hdb]
        simp [processRules, hq, hc, hg, ih, hsz]

/-- Claim C1: with a successfully loaded rule list and error-free
collaborators, the engine returns the sum over all rules of the number of
matching records that have a truthy `unique_id` and for which at least one
bundled operation returned success (logical OR across the rule's operations);
records without a `unique_id` and rules with an empty compiled predicate
contribute nothing. -/
theorem run_operations_returns_aggregate_successes (now : Nat) (rules : List Rule)
    (dbF : String → List JVal → List Email)
    (apF : String → EmailOperation → Bool) :
    (run_operations (Except.ok rules) now (fun cond vals => Except.ok (dbF cond vals))
        (fun i op => Except.ok (apF i op))).1
      = PyResult.ret (some ((rules.map (successesForRule now dbF apF)).sum)) := by
  rcases hP : processRules now (fun cond vals => Except.ok (dbF cond vals))
      (fun i op => Except.ok (apF i op)) rules 0 with ⟨r, tr⟩
  have hr : r = Except.ok (0 + (rules.map (successesForRule now dbF apF)).sum) := by
    have hl := processRules_ok_oracle now dbF apF rules 0
    rw [hP] at hl
    exact hl
  subst hr
  simp [run_operations, hP]

/-- Every event recorded by the operation loop is a mail-service update. -/
theorem applyOps_trace (applyOp : String → EmailOperation → Except Unit Bool)
    (email_id : String) (ops : List EmailOperation) (b : Bool) :
    ((applyOps applyOp email_id ops b).2.all Event.isStoreReadOrMailUpdate) = true := by
  induction ops generalizing b with
  | nil => simp [applyOps]
  | cons op rest ih =>
    rw [applyOps]
    cases applyOp email_id op with
    | error e => cases op <;> simp [opEvent, Event.isStoreReadOrMailUpdate]
    | ok result =>
      rcases hP : applyOps applyOp email_id rest (b || result) with ⟨r, tr⟩
      have ht := ih (b || result)
      rw [hP] at ht
      cases op <;> simp_all [opEvent, Event.isStoreReadOrMailUpdate]

/-- Every event recorded by the email loop is a mail-service update. -/
theorem processEmails_trace (applyOp : String → EmailOperation → Except Unit Bool)
    (ops : List EmailOperation) (emails : List Email) (acc : Nat) :
    ((processEmails applyOp ops emails acc).2.all Event.isStoreReadOrMailUpdate) = true := by
  induction emails generalizing acc with
  | nil => simp [processEmails]
  | cons e rest ih =>
    rw [processEmails]
    cases he : optStrTruthy e.unique_id with
    | false => simp [he, ih]
    | true =>
      simp only [he, if_true]
      rcases hA : applyOps applyOp (e.unique_id.getD "") ops false with ⟨ra, tra⟩
      have hta : tra.all Event.isStoreReadOrMailUpdate = true := by
        have ht := applyOps_trace applyOp (e.unique_id.getD "") ops false
        rw [hA] at ht
        exact ht
      cases ra with
      | error err => simp [hA, hta]
      | ok is_success =>
        rcases hR : processEmails applyOp ops rest
            (acc + if is_success then 1 else 0) with ⟨r2, tr2⟩
        have ht2 : tr2.all Event.isStoreReadOrMailUpdate = true := by
          have ht := ih (acc + if is_success then 1 else 0)
          rw [hR] at ht
          exact ht
        simp [hA, hR, List.all_append, hta, ht2]

/-- Every event recorded by the rule loop is a store read (on table
`"emails"`) or a mail-service update. -/
theorem processRules_trace (now : Nat)
    (dbRead : String → List JVal → Except Unit (List Email))
    (applyOp : String → EmailOperation → Except Unit Bool)
    (rules : List Rule) (acc : Nat) :
    ((processRules now dbRead applyOp rules acc).2.all Event.isStoreReadOrMailUpdate)
      = true := by
  induction rules generalizing acc with
  | nil => simp [processRules]
  | cons rule rest ih =>
    rw [processRules]
    rcases hq : create_sql_query now rule with ⟨cond, vals⟩
    by_cases hc : cond = ""
    · simp [hq, hc, ih]
    · cases hdb : dbRead cond vals with
      | error e => simp [hq, hc, hdb, Event.isStoreReadOrMailUpdate]
      | ok matching =>
        by_cases hg : rule.operations ≠ [] ∧ matching ≠ []
        · rcases hE : processEmails applyOp (bundle_email_operations rule.operations)
              matching 0 with ⟨re, tre⟩
          have hte : tre.all Event.isStoreReadOrMailUpdate = true := by
            have ht := processEmails_trace applyOp
              (bundle_email_operations rule.operations) matching 0
            rw [hE] at ht
            exact ht
          cases re with
          | error err => simp [hq, hc, hdb, hg, hE, hte, Event.isStoreReadOrMailUpdate]
          | ok n =>
            rcases hR : processRules now dbRead applyOp rest (acc + n) with ⟨r2, tr2⟩
            have ht2 : tr2.all Event.isStoreReadOrMailUpdate = true := by
              have ht := ih (acc + n)
              rw [hR] at ht
              exact ht
            simp [hq, hc, hdb, hg, hE, hR, List.all_append, hte, ht2,
              Event.isStoreReadOrMailUpdate]
        · rcases hR : processRules now dbRead applyOp rest acc with ⟨r2, tr2⟩
          have ht2 : tr2.all Event.isStoreReadOrMailUpdate = true := by
            have ht := ih acc
            rw [hR] at ht
            exact ht
          simp [hq, hc, hdb, hg, hR, ht2, Event.isStoreReadOrMailUpdate]

/-- Claim C9: for every run, every collaborator call the engine makes is
either a read of the store or a mail-service update — in particular the
engine never inserts, updates or deletes stored records; remote mutation
goes only through the mail-service collaborator. -/
theorem run_operations_never_writes_store (load : Except Unit (List Rule)) (now : Nat)
    (dbRead : String → List JVal → Except Unit (List Email))
    (applyOp : String → EmailOperation → Except Unit Bool) :
    ((run_operations load now dbRead applyOp).2.all Event.isStoreReadOrMailUpdate) = true ∧
    ((run_operations load now dbRead applyOp).2.all (fun ev => !ev.isStoreWrite)) = true := by
  have h1 : ((run_operations load now dbRead applyOp).2.all Event.isStoreReadOrMailUpdate)
      = true := by
    cases load with
    | error e => simp [run_operations]
    | ok rules =>
      rcases hP : processRules now dbRead applyOp rules 0 with ⟨r, tr⟩
      have ht : tr.all Event.isStoreReadOrMailUpdate = true := by
        have h := processRules_trace now dbRead applyOp rules 0
        rw [hP] at h
        exact h
      cases r <;> simp [run_operations, hP, ht]
  refine ⟨h1, ?_⟩
  rw [List.all_eq_true] at h1 ⊢
  intro ev hev
  have h2 := h1 ev hev
  cases ev <;> simp_all [Event.isStoreReadOrMailUpdate, Event.isStoreWrite]

/-- Claim C6: a rule none of whose conditions compile yields the empty
predicate with no bound values, and the engine processes the remaining rules
exactly as if that rule were absent: no store query, no operations, no trace
events and no contribution to the aggregate come from it. -/
theorem empty_predicate_rule_is_skipped (now : Nat) (rule : Rule) (rest : List Rule)
    (dbRead : String → List JVal → Except Unit (List Email))
    (applyOp : String → EmailOperation → Except Unit Bool)
    (h : rule.rules.filterMap (build_condition now) = []) :
    create_sql_query now rule = ("", []) ∧
    run_operations (Except.ok (rule :: rest)) now dbRead applyOp
      = run_operations (Except.ok rest) now dbRead applyOp := by
  have hq : create_sql_query now rule = ("", []) := by
    rw [create_sql_query_eq, if_pos h]
  refine ⟨hq, ?_⟩
  have hstep : processRules now dbRead applyOp (rule :: rest) 0
      = processRules now dbRead applyOp rest 0 := by
    rw [processRules]
    simp [hq]
  simp [run_operations, hstep]

/-- Witness for C6: a rule whose single condition is missing every subfield
compiles to the empty predicate, and running the engine on just that rule is
the same as running it on no rules at all. -/
theorem empty_predicate_rule_is_skipped_witness :
    create_sql_query 0 exampleEmptyRule = ("", []) ∧
    run_operations (Except.ok [exampleEmptyRule]) 0 (fun _ _ => Except.ok [])
        (fun _ _ => Except.ok true)
      = run_operations (Except.ok []) 0 (fun _ _ => Except.ok [])
          (fun _ _ => Except.ok true) :=
  empty_predicate_rule_is_skipped 0 exampleEmptyRule [] (fun _ _ => Except.ok [])
    (fun _ _ => Except.ok true) (by decide)

/-- Claim C7 (amended): the engine's top-level `try/except` means a caller
only ever observes a returned value, never a raised exception; a rule-file
load failure is caught there, aborts all rule processing (no collaborator
call is made) and surfaces as a returned `None`; and with error-free
collaborators the run always completes with an aggregate count, individual
operation failures (`False` results) notwithstanding. -/
theorem run_operations_failure_semantics (now : Nat)
    (dbRead : String → List JVal → Except Unit (List Email))
    (applyOp : String → EmailOperation → Except Unit Bool) :
    (∀ load, ∃ v, (run_operations load now dbRead applyOp).1 = PyResult.ret v) ∧
    (∀ e : Unit, run_operations (Except.error e) now dbRead applyOp
        = (PyResult.ret none, [])) ∧
    (∀ (rules : List Rule) (dbF : String → List JVal → List Email)
        (apF : String → EmailOperation → Bool),
      ∃ n, (run_operations (Except.ok rules) now
            (fun cond vals => Except.ok (dbF cond vals))
            (fun i op => Except.ok (apF i op))).1
        = PyResult.ret (some n)) := by
  refine ⟨?_, ?_, ?_⟩
  · intro load
    cases load with
    | error e => exact ⟨none, rfl⟩
    | ok rules =>
      rcases hP : processRules now dbRead applyOp rules 0 with ⟨r, tr⟩
      cases r with
      | ok n => exact ⟨some n, by simp [run_operations, hP]⟩
      | error e => exact ⟨none, by simp [run_operations, hP]⟩
  · intro e
    rfl
  · intro rules dbF apF
    refine ⟨(rules.map (successesForRule now dbF apF)).sum, ?_⟩
    rcases hP : processRules now (fun cond vals => Except.ok (dbF cond vals))
        (fun i op => Except.ok (apF i op)) rules 0 with ⟨r, tr⟩
    have hr : r = Except.ok (0 + (rules.map (successesForRule now dbF apF)).sum) := by
      have hl := processRules_ok_oracle now dbF apF rules 0
      rw [hP] at hl
      exact hl
    subst hr
    simp [run_operations, hP]

/-- Counterexample to claim C7 as stated: when loading the rule file fails,
`run_operations` does not propagate the error — the top-level handler
returns Python `None`, so the caller observes neither an aggregate success
count nor a raised load error. -/
theorem run_operations_load_failure_cex :
    run_operations (Except.error ()) 0 (fun _ _ => Except.ok [])
        (fun _ _ => Except.ok true)
      = (PyResult.ret none, []) ∧
    observesCountOrRaise
        (run_operations (Except.error ()) 0 (fun _ _ => Except.ok [])
          (fun _ _ => Except.ok true)).1 = false :=
  ⟨rfl, rfl⟩

